import Mathlib

/-!
Verification of the node-messaging-service token-verification and
contact-resolution pipeline, shallowly embedded from the TypeScript source
(src/internal/auth/auth.middleware.ts, src/internal/firestore.ts,
src/main.ts, src/config.ts). JavaScript strings are modelled by Lean
strings; the JS string operations used by the code (split on a space,
startsWith) are embedded as structural functions over the character list
so that they compute by kernel reduction.
-/

/-- A JavaScript runtime value, as far as the middleware inspects one: a
JWT payload claim may be absent (undefined), null, a boolean, a number or
a string. -/
inductive JsVal where
  | vUndef
  | vNull
  | vBool (b : Bool)
  | vNum (n : Int)
  | vStr (s : String)

deriving instance DecidableEq for JsVal

/-- JavaScript truthiness of a value: undefined, null, false, 0 and the
empty string are falsy, everything else modelled here is truthy. -/
def jsTruthy : JsVal → Bool
  | .vUndef => false
  | .vNull => false
  | .vBool b => b
  | .vNum n => decide (n ≠ 0)
  | .vStr s => decide (s ≠ "")

/-- The JS test (typeof v === "string"). -/
def JsVal.isString : JsVal → Bool
  | .vStr _ => true
  | _ => false

/-- A decoded JWT payload, restricted to the claims the service reads.
A claim that is absent from the token is vUndef. -/
structure JwtPayload where
  sub : JsVal
  email : JsVal
  «alias» : JsVal

deriving instance DecidableEq for JwtPayload

/-- The verified caller attached to a request (req.user). The id comes
from the sub claim; email and alias are copied from the payload unchanged
(the TS code only casts them, a runtime no-op). -/
structure Identity where
  id : String
  email : JsVal
  «alias» : JsVal

deriving instance DecidableEq for Identity

/-- Reasons the abstract token verifier (jose jwtVerify or jsonwebtoken
verify) can throw. -/
inductive VerifyErr where
  | expired
  | signatureInvalid
  | keyNotFound
  | malformed

deriving instance DecidableEq for VerifyErr

/-- The token verifier capability: the jose jwtVerify call with the JWKS
client applied, or jwt.verify with the shared secret applied. -/
def Verifier : Type := String → Except VerifyErr JwtPayload

/-- Splits a character list at every single space character, keeping empty
pieces, exactly as the JS split does with a one-character separator. -/
def splitChars : List Char → List (List Char)
  | [] => [[]]
  | c :: rest =>
    let r := splitChars rest
    if c = ' ' then [] :: r else (c :: r.headD []) :: r.tail

/-- Model of the JS expression s.split(" "). -/
def jsSplitSpace (s : String) : List String :=
  (splitChars s.data).map String.mk

/-- Model of the JS test s.startsWith(p): p is a leading piece of s. -/
def jsStartsWith (s p : String) : Bool :=
  p.data.isPrefixOf s.data

/-- Outcome of the auth middleware on one request: a 401 rejection with
the JSON error message, or acceptance with the Identity attached to the
request before next() is called. -/
inductive AuthOutcome where
  | reject (msg : String)
  | accept (user : Identity)

deriving instance DecidableEq for AuthOutcome

/-- Embedding of createAuthMiddleware from
src/internal/auth/auth.middleware.ts (the JWKS variant). The jose
jwtVerify call is abstracted as the verify capability. The Bool in the
result records whether verify was invoked for the request. -/
def createAuthMiddleware (verify : Verifier) (authHeader : Option String) :
    AuthOutcome × Bool :=
  match authHeader with
  | none => (.reject "Unauthorized: No or invalid token provided.", false)
  | some h =>
    if jsStartsWith h "Bearer " = false then
      (.reject "Unauthorized: No or invalid token provided.", false)
    else
      let token := (jsSplitSpace h)[1]?.getD ""
      if token = "" then
        (.reject "Unauthorized: Token is missing.", false)
      else
        match verify token with
        | .error _ => (.reject "Unauthorized: Invalid or expired token.", true)
        | .ok payload =>
          match payload.sub with
          | .vStr s =>
            if jsTruthy payload.email && jsTruthy payload.«alias» then
              (.accept ⟨s, payload.email, payload.«alias»⟩, true)
            else
              (.reject "Unauthorized: Invalid or expired token.", true)
          | _ => (.reject "Unauthorized: Invalid or expired token.", true)

/-- Outcome of the older middleware: as AuthOutcome, plus uncaught errors
thrown outside its try block (which Express would turn into a 500). -/
inductive LegacyOutcome where
  | reject (msg : String)
  | accept (user : Identity)
  | uncaught (msg : String)

deriving instance DecidableEq for LegacyOutcome

/-- Embedding of the older authMiddleware (shared-secret variant) from
src/internal/auth/auth.middleware.ts. jwt.verify is abstracted as the
verify capability; note that this variant checks only the sub claim
before constructing the user. -/
def authMiddleware (verify : Verifier) (jwtSecret : Option String)
    (authHeader : Option String) : LegacyOutcome :=
  match authHeader with
  | none => .reject "Unauthorized: No token provided."
  | some h =>
    if jsStartsWith h "Bearer " = false then
      .reject "Unauthorized: No token provided."
    else
      match (jsSplitSpace h)[1]? with
      | none => .uncaught "Token is undefined"
      | some token =>
        match jwtSecret with
        | none => .uncaught "jwtSecret is undefined"
        | some _ =>
          match verify token with
          | .error _ => .reject "Unauthorized: Invalid or expired token."
          | .ok payload =>
            match payload.sub with
            | .vStr s => .accept ⟨s, payload.email, payload.«alias»⟩
            | _ => .reject "Unauthorized: Invalid or expired token."

/-- A contact record as returned by the identity-provider lookup
endpoint: the three declared fields plus any extra fields the provider
includes in its JSON response body. -/
structure ProviderContact where
  id : String
  email : String
  «alias» : String
  extra : List (String × String)

deriving instance DecidableEq for ProviderContact

/-- A contact as listed by getUserAddressBook. -/
structure Contact where
  id : String
  email : String
  «alias» : String

deriving instance DecidableEq for Contact

/-- A document of the address_book subcollection: the set call in
addContactToAddressBook writes exactly these three fields. -/
structure StoredDoc where
  «alias» : String
  email : String
  userId : String

deriving instance DecidableEq for StoredDoc

/-- The Firestore state relevant to this service: documents at paths
authorized_users/ownerId/address_book/docId, modelled as entries keyed by
the pair (ownerId, docId). -/
abbrev Store : Type := List ((String × String) × StoredDoc)

/-- Firestore DocumentReference.set at a key: overwrite the document at
the key when present, create it otherwise. -/
def setDoc : Store → String × String → StoredDoc → Store
  | [], k, d => [(k, d)]
  | e :: rest, k, d => if e.1 = k then (k, d) :: rest else e :: setDoc rest k d

/-- Embedding of addContactToAddressBook from src/internal/firestore.ts:
stores alias, email and userId under the owner collection, keyed by the
id of the contact itself. -/
def addContactToAddressBook (s : Store) (ownerId : String)
    (contactToAdd : ProviderContact) : Store :=
  setDoc s (ownerId, contactToAdd.id)
    ⟨contactToAdd.«alias», contactToAdd.email, contactToAdd.id⟩

/-- Embedding of getUserAddressBook from src/internal/firestore.ts: reads
the documents of the owner subcollection and maps each one to a Contact
whose id is the stored userId field. -/
def getUserAddressBook (s : Store) (userId : String) : List Contact :=
  (s.filter (fun e => e.1.1 == userId)).map
    (fun e => ⟨e.2.userId, e.2.email, e.2.«alias»⟩)

/-- Result of the axios GET of the identity-provider lookup endpoint for
one email: the parsed Contact body, an axios error with response status
404, or any other axios failure (non-success status or network error). -/
inductive LookupResult where
  | found (c : ProviderContact)
  | notFound
  | upstreamError

deriving instance DecidableEq for LookupResult

/-- JSON bodies the two routes send. -/
inductive Body where
  | errMsg (s : String)
  | contactBody (c : ProviderContact)
  | contactList (l : List Contact)

deriving instance DecidableEq for Body

/-- Observable outcome of one handled POST request: HTTP status and body
sent, the Firestore state afterwards, whether the token verifier ran, and
how many provider lookups and Firestore writes were attempted. -/
structure PostResult where
  status : Nat
  body : Body
  store : Store
  verifierCalled : Bool
  providerCalls : Nat
  storeWriteAttempts : Nat

deriving instance DecidableEq for PostResult

/-- Embedding of the POST /api/address-book/contacts route of src/main.ts
(current variant), composed with createAuthMiddleware. The axios lookup
is the provider capability; writeFails models a rejected Firestore write,
which the same catch block turns into a 500 since it is not an axios 404
error. -/
def handlePost (verify : Verifier) (provider : String → LookupResult)
    (writeFails : Bool) (s : Store) (authHeader : Option String)
    (bodyEmail : Option String) : PostResult :=
  match createAuthMiddleware verify authHeader with
  | (.reject msg, vc) => ⟨401, .errMsg msg, s, vc, 0, 0⟩
  | (.accept owner, vc) =>
    if bodyEmail.getD "" = "" then
      ⟨400, .errMsg "Email is required.", s, vc, 0, 0⟩
    else
      match provider (bodyEmail.getD "") with
      | .notFound =>
        ⟨404, .errMsg "User with that email not found.", s, vc, 1, 0⟩
      | .upstreamError =>
        ⟨500, .errMsg "An internal error occurred while adding the contact.",
          s, vc, 1, 0⟩
      | .found c =>
        if writeFails then
          ⟨500, .errMsg "An internal error occurred while adding the contact.",
            s, vc, 1, 1⟩
        else
          ⟨201, .contactBody c, addContactToAddressBook s owner.id c, vc, 1, 1⟩

/-- Observable outcome of one handled GET request. -/
structure GetResult where
  status : Nat
  body : Body
  verifierCalled : Bool
  storeReads : Nat

deriving instance DecidableEq for GetResult

/-- Embedding of the GET /api/address-book route of src/main.ts (current
variant), composed with createAuthMiddleware; readFails models a rejected
Firestore read. -/
def handleGet (verify : Verifier) (readFails : Bool) (s : Store)
    (authHeader : Option String) : GetResult :=
  match createAuthMiddleware verify authHeader with
  | (.reject msg, vc) => ⟨401, .errMsg msg, vc, 0⟩
  | (.accept user, vc) =>
    if readFails then ⟨500, .errMsg "An internal error occurred.", vc, 1⟩
    else ⟨200, .contactList (getUserAddressBook s user.id), vc, 1⟩

/-- The relevant environment variables; a variable that is not set at all
is none, a variable set to the empty string is some "". -/
structure Env where
  PORT : Option String
  GCP_PROJECT_ID : Option String
  IDENTITY_SERVICE_URL : Option String
  INTERNAL_API_KEY : Option String

deriving instance DecidableEq for Env

/-- JS truthiness of an optional environment string: unset and empty are
both falsy. -/
def envTruthy : Option String → Bool
  | none => false
  | some s => decide (s ≠ "")

/-- The config object built by src/config.ts (current variant). -/
structure Config where
  port : String
  gcpProjectId : Option String
  identityServiceUrl : Option String
  internalApiKey : Option String

deriving instance DecidableEq for Config

/-- Embedding of src/config.ts (current variant): builds the config
object, with port falling back to 3001 when PORT is unset or empty, then
walks requiredSecrets = [gcpProjectId, identityServiceUrl,
internalApiKey] in order and throws on the first falsy one. PORT is not
in requiredSecrets. -/
def loadConfig (env : Env) : Except String Config :=
  let cfg : Config :=
    ⟨match env.PORT with
      | none => "3001"
      | some p => if p = "" then "3001" else p,
     env.GCP_PROJECT_ID, env.IDENTITY_SERVICE_URL, env.INTERNAL_API_KEY⟩
  if envTruthy cfg.gcpProjectId = false then
    .error "FATAL: Missing required environment variable: GCPPROJECTID"
  else if envTruthy cfg.identityServiceUrl = false then
    .error "FATAL: Missing required environment variable: IDENTITYSERVICEURL"
  else if envTruthy cfg.internalApiKey = false then
    .error "FATAL: Missing required environment variable: INTERNALAPIKEY"
  else
    .ok cfg

/-- Identity-provider metadata as parsed from the well-known endpoint;
a field that is absent from the JSON response is none. -/
structure ProviderMetadata where
  id_token_signing_alg_values_supported : Option (List String)
  jwks_uri : Option String

deriving instance DecidableEq for ProviderMetadata

/-- The running application, which exists only when startServer reaches
listen: requests are served only through one of these. -/
structure App where
  jwksUri : String
  port : String

deriving instance DecidableEq for App

/-- The JWT algorithm this service requires, fixed in src/main.ts. -/
def requiredAlg : String := "RS256"

/-- The JS condition of the policy check in src/main.ts: the throw is
taken when supportedAlgs is absent (falsy) or does not include the
required algorithm, so the check passes exactly when this is true. -/
def algPolicyOk (supportedAlgs : Option (List String)) : Bool :=
  match supportedAlgs with
  | none => false
  | some l => l.contains requiredAlg

/-- Embedding of startServer from src/main.ts (current variant) up to
listen: the config presence check, metadata discovery (the axios GET,
whose outcome is passed in), the algorithm policy check, the Firestore
connectivity probe, and the jwks_uri parse. Any error is fatal: the catch
block calls process.exit(1), so no request is ever served. -/
def startServer (cfg : Config) (discovery : Except String ProviderMetadata)
    (firestoreOk : Bool) : Except String App :=
  if envTruthy cfg.gcpProjectId = false ∨ envTruthy cfg.identityServiceUrl = false then
    .error "Missing gcpProjectId or identityServiceUrl in configuration."
  else
    match discovery with
    | .error e => .error e
    | .ok metadata =>
      if algPolicyOk metadata.id_token_signing_alg_values_supported = false then
        .error "FATAL: Identity service no longer supports the required JWT algorithm RS256"
      else if firestoreOk = false then
        .error "Firestore connection failed"
      else
        match metadata.jwks_uri with
        | none => .error "Invalid jwks_uri"
        | some u => .ok ⟨u, cfg.port⟩

/-! ## Helper lemmas about the document store -/

/-- Writing a key twice leaves exactly the state of the second write. -/
theorem setDoc_setDoc_same (s : Store) (k : String × String)
    (d d' : StoredDoc) : setDoc (setDoc s k d) k d' = setDoc s k d' := by
  induction s with
  | nil => simp [setDoc]
  | cons e rest ih =>
    by_cases h : e.1 = k
    · simp [setDoc, h]
    · simp [setDoc, h, ih]

/-- The written entry is present after a write. -/
theorem mem_setDoc_self (s : Store) (k : String × String) (d : StoredDoc) :
    (k, d) ∈ setDoc s k d := by
  induction s with
  | nil => exact List.mem_singleton.mpr rfl
  | cons e rest ih =>
    unfold setDoc
    by_cases h : e.1 = k
    · simp [h]
    · rw [if_neg h]
      exact List.mem_cons_of_mem e ih

/-- Every entry after a write is an old entry or the written one. -/
theorem mem_of_mem_setDoc {s : Store} {k : String × String} {d : StoredDoc}
    {e : (String × String) × StoredDoc} (h : e ∈ setDoc s k d) :
    e ∈ s ∨ e = (k, d) := by
  induction s with
  | nil =>
    right
    simpa [setDoc] using h
  | cons e₀ rest ih =>
    unfold setDoc at h
    by_cases h₀ : e₀.1 = k
    · rw [if_pos h₀] at h
      rcases List.mem_cons.mp h with h1 | h1
      · right; exact h1
      · left; exact List.mem_cons_of_mem _ h1
    · rw [if_neg h₀] at h
      rcases List.mem_cons.mp h with h1 | h1
      · left; simp [h1]
      · rcases ih h1 with h2 | h2
        · left; exact List.mem_cons_of_mem _ h2
        · right; exact h2

/-- The document keys of a store, in order. -/
def storeKeys (s : Store) : List (String × String) := s.map Prod.fst

/-- When the keys of the store are distinct, a write leaves exactly one
document at the written key. -/
theorem countP_setDoc_self (s : Store) (k : String × String) (d : StoredDoc)
    (hnd : (storeKeys s).Nodup) :
    (setDoc s k d).countP (fun e => decide (e.1 = k)) = 1 := by
  induction s with
  | nil => simp [setDoc]
  | cons e rest ih =>
    rw [storeKeys, List.map_cons, List.nodup_cons] at hnd
    obtain ⟨hnotin, hrest⟩ := hnd
    unfold setDoc
    by_cases h : e.1 = k
    · rw [if_pos h]
      rw [List.countP_cons]
      simp only [decide_eq_true_eq]
      have hzero : rest.countP (fun e => decide (e.1 = k)) = 0 := by
        rw [List.countP_eq_zero]
        intro a ha
        simp only [decide_eq_true_eq]
        intro hak
        exact hnotin (h ▸ hak ▸ List.mem_map_of_mem Prod.fst ha)
      simp [hzero]
    · rw [if_neg h]
      rw [List.countP_cons]
      simp only [decide_eq_true_eq, h, if_false]
      rw [ih hrest]

/-- Invariant of the contact store: every document records as its userId
field the document id it is stored under. -/
def storeInv (s : Store) : Prop := ∀ e ∈ s, e.2.userId = e.1.2

/-! ## Claim theorems: document store -/

/-- C5: adding the same resolved contact identifier twice for one owner
leaves exactly the state of the second add, and, when the store keys are
distinct, exactly one stored document for that contact id. -/
theorem addContact_idempotent (s : Store) (ownerId : String)
    (c c' : ProviderContact) (hid : c'.id = c.id) :
    addContactToAddressBook (addContactToAddressBook s ownerId c) ownerId c' =
      addContactToAddressBook s ownerId c' ∧
    ((storeKeys s).Nodup →
      (addContactToAddressBook (addContactToAddressBook s ownerId c) ownerId
          c').countP (fun e => decide (e.1 = (ownerId, c'.id))) = 1) := by
  have heq :
      addContactToAddressBook (addContactToAddressBook s ownerId c) ownerId c' =
        addContactToAddressBook s ownerId c' := by
    unfold addContactToAddressBook
    rw [hid]
    exact setDoc_setDoc_same s (ownerId, c.id) _ _
  refine ⟨heq, fun hnd => ?_⟩
  rw [heq]
  exact countP_setDoc_self s (ownerId, c'.id) _ hnd

/-- Witness for addContact_idempotent at concrete inputs. -/
theorem addContact_idempotent_witness :
    addContactToAddressBook
        (addContactToAddressBook [] "o" ⟨"u1", "a@x", "A", []⟩) "o"
        ⟨"u1", "b@x", "B", []⟩ =
      addContactToAddressBook [] "o" ⟨"u1", "b@x", "B", []⟩ ∧
    (addContactToAddressBook
        (addContactToAddressBook [] "o" ⟨"u1", "a@x", "A", []⟩) "o"
        ⟨"u1", "b@x", "B", []⟩).countP
      (fun e => decide (e.1 = ("o", "u1"))) = 1 := by
  have h := addContact_idempotent [] "o" ⟨"u1", "a@x", "A", []⟩
    ⟨"u1", "b@x", "B", []⟩ rfl
  exact ⟨h.1, h.2 (by decide)⟩

/-- C10: a written document holds exactly the fields alias, email and
userId with userId equal to the document id it is stored under; the
writes preserve the store invariant; each listed contact takes its id
from the stored userId field, which under the invariant is the key the
document is persisted under; and a 201 response echoes the full provider
body while only the three fields are persisted. -/
theorem store_userId_invariant (s : Store) (ownerId : String)
    (c : ProviderContact) :
    (∀ e ∈ addContactToAddressBook s ownerId c,
      e ∈ s ∨ e = ((ownerId, c.id), ⟨c.«alias», c.email, c.id⟩)) ∧
    (storeInv s → storeInv (addContactToAddressBook s ownerId c)) ∧
    (storeInv s → ∀ uid, ∀ c' ∈ getUserAddressBook s uid,
      ∃ e ∈ s, e.1 = (uid, c'.id) ∧ e.2.email = c'.email ∧
        e.2.«alias» = c'.«alias») ∧
    (∀ (verify : Verifier) (provider : String → LookupResult)
        (authHeader : Option String) (e : String) (owner : Identity)
        (vc : Bool),
      createAuthMiddleware verify authHeader = (.accept owner, vc) →
      e ≠ "" → provider e = .found c →
      (handlePost verify provider false s authHeader (some e)).body =
        .contactBody c ∧
      (handlePost verify provider false s authHeader (some e)).store =
        setDoc s (owner.id, c.id) ⟨c.«alias», c.email, c.id⟩) := by
  refine ⟨?_, ?_, ?_, ?_⟩
  · intro e he
    exact mem_of_mem_setDoc he
  · intro hinv e he
    rcases mem_of_mem_setDoc he with h | h
    · exact hinv e h
    · rw [h]
  · intro hinv uid c' hc'
    unfold getUserAddressBook at hc'
    rcases List.mem_map.mp hc' with ⟨e, he, hmap⟩
    rcases List.mem_filter.mp he with ⟨hes, hkey⟩
    refine ⟨e, hes, ?_, ?_, ?_⟩
    · have h1 : e.1.1 = uid := by simpa using hkey
      have h2 : e.2.userId = e.1.2 := hinv e hes
      have h3 : c'.id = e.2.userId := by rw [← hmap]
      rw [← h1, h3, h2]
    · rw [← hmap]
    · rw [← hmap]
  · intro verify provider authHeader e owner vc hmw hne hp
    have : (some e).getD "" = e := rfl
    constructor
    · simp [handlePost, hmw, this, hne, hp, addContactToAddressBook]
    · simp [handlePost, hmw, this, hne, hp, addContactToAddressBook]

/-- Witness for store_userId_invariant at concrete inputs. -/
theorem store_userId_invariant_witness :
    (∀ e ∈ addContactToAddressBook [] "o" ⟨"u1", "a@x", "A", [("x", "y")]⟩,
      e ∈ ([] : Store) ∨ e = (("o", "u1"), ⟨"A", "a@x", "u1"⟩)) ∧
    storeInv (addContactToAddressBook [] "o" ⟨"u1", "a@x", "A", [("x", "y")]⟩) ∧
    (∀ uid, ∀ c' ∈ getUserAddressBook [(("o", "u1"), ⟨"A", "a@x", "u1"⟩)] uid,
      ∃ e ∈ [(("o", "u1"), (⟨"A", "a@x", "u1"⟩ : StoredDoc))],
        e.1 = (uid, c'.id) ∧ e.2.email = c'.email ∧
        e.2.«alias» = c'.«alias») ∧
    ((handlePost (fun _ => .ok ⟨.vStr "o", .vStr "e", .vStr "a"⟩)
        (fun _ => .found ⟨"u1", "a@x", "A", [("x", "y")]⟩) false []
        (some "Bearer tok") (some "a@x")).body =
      .contactBody ⟨"u1", "a@x", "A", [("x", "y")]⟩ ∧
    (handlePost (fun _ => .ok ⟨.vStr "o", .vStr "e", .vStr "a"⟩)
        (fun _ => .found ⟨"u1", "a@x", "A", [("x", "y")]⟩) false []
        (some "Bearer tok") (some "a@x")).store =
      setDoc [] ("o", "u1") ⟨"A", "a@x", "u1"⟩) := by
  have h := store_userId_invariant [] "o" ⟨"u1", "a@x", "A", [("x", "y")]⟩
  refine ⟨h.1, h.2.1 (by intro e he; simp at he), ?_, ?_⟩
  · have h3 := store_userId_invariant
      [(("o", "u1"), (⟨"A", "a@x", "u1"⟩ : StoredDoc))] "o"
      ⟨"u1", "a@x", "A", [("x", "y")]⟩
    exact h3.2.2.1 (by intro e he; simp at he; simp [he])
  · exact h.2.2.2 (fun _ => .ok ⟨.vStr "o", .vStr "e", .vStr "a"⟩)
      (fun _ => .found ⟨"u1", "a@x", "A", [("x", "y")]⟩)
      (some "Bearer tok") "a@x" ⟨"o", .vStr "e", .vStr "a"⟩ true
      (by decide) (by decide) rfl

/-! ## Claim theorems: contact-resolution error handling -/

/-- C8: an authenticated POST whose body has an empty or absent email
responds 400 and performs neither the provider lookup nor the store
write; the store is unchanged. -/
theorem handlePost_missing_email (verify : Verifier)
    (provider : String → LookupResult) (writeFails : Bool) (s : Store)
    (authHeader : Option String) (bodyEmail : Option String)
    (owner : Identity) (vc : Bool)
    (hmw : createAuthMiddleware verify authHeader = (.accept owner, vc))
    (hemail : bodyEmail = none ∨ bodyEmail = some "") :
    handlePost verify provider writeFails s authHeader bodyEmail =
      ⟨400, .errMsg "Email is required.", s, vc, 0, 0⟩ := by
  rcases hemail with h | h <;> simp [handlePost, hmw, h, Option.getD]

/-- Witness for handlePost_missing_email at concrete inputs. -/
theorem handlePost_missing_email_witness :
    handlePost (fun _ => .ok ⟨.vStr "o", .vStr "e", .vStr "a"⟩)
        (fun _ => .upstreamError) false [] (some "Bearer tok") none =
      ⟨400, .errMsg "Email is required.", [], true, 0, 0⟩ :=
  handlePost_missing_email (fun _ => .ok ⟨.vStr "o", .vStr "e", .vStr "a"⟩)
    (fun _ => .upstreamError) false [] (some "Bearer tok") none
    ⟨"o", .vStr "e", .vStr "a"⟩ true (by decide) (Or.inl rfl)

/-- C7: for an authenticated POST with a non-empty email, a provider
not-found answer maps to 404, any other provider failure and a failed
store write map to 500, the store is unchanged on each of these paths,
and the provider is called exactly once (never retried). -/
theorem handlePost_upstream_failures (verify : Verifier)
    (provider : String → LookupResult) (writeFails : Bool) (s : Store)
    (authHeader : Option String) (e : String) (owner : Identity) (vc : Bool)
    (hmw : createAuthMiddleware verify authHeader = (.accept owner, vc))
    (hne : e ≠ "") :
    (provider e = .notFound →
      handlePost verify provider writeFails s authHeader (some e) =
        ⟨404, .errMsg "User with that email not found.", s, vc, 1, 0⟩) ∧
    (provider e = .upstreamError →
      handlePost verify provider writeFails s authHeader (some e) =
        ⟨500, .errMsg "An internal error occurred while adding the contact.",
          s, vc, 1, 0⟩) ∧
    (∀ c, provider e = .found c → writeFails = true →
      handlePost verify provider writeFails s authHeader (some e) =
        ⟨500, .errMsg "An internal error occurred while adding the contact.",
          s, vc, 1, 1⟩) ∧
    (handlePost verify provider writeFails s authHeader (some e)).providerCalls ≤ 1 := by
  have hget : (some e).getD "" = e := rfl
  refine ⟨?_, ?_, ?_, ?_⟩
  · intro hp
    simp [handlePost, hmw, hget, hne, hp]
  · intro hp
    simp [handlePost, hmw, hget, hne, hp]
  · intro c hp hw
    simp [handlePost, hmw, hget, hne, hp, hw]
  · cases hp : provider e with
    | found c =>
      cases writeFails <;> simp [handlePost, hmw, hget, hne, hp]
    | notFound => simp [handlePost, hmw, hget, hne, hp]
    | upstreamError => simp [handlePost, hmw, hget, hne, hp]

/-- Witness for handlePost_upstream_failures at concrete inputs. -/
theorem handlePost_upstream_failures_witness :
    handlePost (fun _ => .ok ⟨.vStr "o", .vStr "e", .vStr "a"⟩)
        (fun _ => .notFound) false [] (some "Bearer tok") (some "a@x") =
      ⟨404, .errMsg "User with that email not found.", [], true, 1, 0⟩ :=
  (handlePost_upstream_failures (fun _ => .ok ⟨.vStr "o", .vStr "e", .vStr "a"⟩)
    (fun _ => .notFound) false [] (some "Bearer tok") "a@x"
    ⟨"o", .vStr "e", .vStr "a"⟩ true (by decide) (by decide)).1 rfl

/-! ## Claim theorems: configuration and startup -/

/-- C9 counterexample: with the project id, the identity-provider URL and
the internal API key set but PORT entirely absent, the configuration
loads (the port silently defaults to 3001) and the process starts, so
the listening port is not a required value whose absence prevents
startup. -/
theorem loadConfig_no_port_counterexample :
    loadConfig ⟨none, some "proj", some "http://idp", some "key"⟩ =
      .ok ⟨"3001", some "proj", some "http://idp", some "key"⟩ ∧
    startServer ⟨"3001", some "proj", some "http://idp", some "key"⟩
        (.ok ⟨some ["RS256"], some "http://idp/jwks"⟩) true =
      .ok ⟨"http://idp/jwks", "3001"⟩ := by
  constructor
  · rfl
  · rfl

/-- C9 amended: the configuration loads exactly when the project id, the
identity-provider base URL and the internal-service credential are all
set and non-empty; the listening port has the default 3001 and its
absence never blocks startup. -/
theorem loadConfig_required_values (env : Env) :
    ((∃ cfg, loadConfig env = .ok cfg) ↔
      (envTruthy env.GCP_PROJECT_ID = true ∧
       envTruthy env.IDENTITY_SERVICE_URL = true ∧
       envTruthy env.INTERNAL_API_KEY = true)) ∧
    (∀ cfg, loadConfig env = .ok cfg → env.PORT = none → cfg.port = "3001") := by
  constructor
  · constructor
    · rintro ⟨cfg, hcfg⟩
      unfold loadConfig at hcfg
      by_cases h1 : envTruthy env.GCP_PROJECT_ID = false
      · simp [h1] at hcfg
      · by_cases h2 : envTruthy env.IDENTITY_SERVICE_URL = false
        · simp [h1, h2] at hcfg
        · by_cases h3 : envTruthy env.INTERNAL_API_KEY = false
          · simp [h1, h2, h3] at hcfg
          · exact ⟨Bool.eq_true_of_not_eq_false h1,
              Bool.eq_true_of_not_eq_false h2,
              Bool.eq_true_of_not_eq_false h3⟩
    · rintro ⟨h1, h2, h3⟩
      unfold loadConfig
      simp only [h1, h2, h3, Bool.true_eq_false, if_false]
      exact ⟨_, rfl⟩
  · intro cfg hcfg hport
    unfold loadConfig at hcfg
    by_cases h1 : envTruthy env.GCP_PROJECT_ID = false
    · simp [h1] at hcfg
    · by_cases h2 : envTruthy env.IDENTITY_SERVICE_URL = false
      · simp [h1, h2] at hcfg
      · by_cases h3 : envTruthy env.INTERNAL_API_KEY = false
        · simp [h1, h2, h3] at hcfg
        · simp [h1, h2, h3] at hcfg
          rw [← hcfg]
          simp [hport]

/-- C3: when the discovered metadata advertises the required algorithm
RS256, startup proceeds past the algorithm policy check (and succeeds
outright when the remaining steps succeed); when RS256 is not advertised,
for example with the list consisting of HS256 alone, startup fails
fatally whatever the later steps would have done, so no App exists and no
request is ever served. -/
theorem startServer_alg_policy (cfg : Config) (algs : List String)
    (jwks : Option String) (firestoreOk : Bool)
    (hc1 : envTruthy cfg.gcpProjectId = true)
    (hc2 : envTruthy cfg.identityServiceUrl = true) :
    ("RS256" ∈ algs →
      algPolicyOk (some algs) = true ∧
      (firestoreOk = true → ∀ u, jwks = some u →
        startServer cfg (.ok ⟨some algs, jwks⟩) firestoreOk = .ok ⟨u, cfg.port⟩)) ∧
    ("RS256" ∉ algs →
      algPolicyOk (some algs) = false ∧
      startServer cfg (.ok ⟨some algs, jwks⟩) firestoreOk =
        .error "FATAL: Identity service no longer supports the required JWT algorithm RS256" ∧
      ∀ app : App, startServer cfg (.ok ⟨some algs, jwks⟩) firestoreOk ≠ .ok app) := by
  have hcond : ¬(envTruthy cfg.gcpProjectId = false ∨
      envTruthy cfg.identityServiceUrl = false) := by
    simp [hc1, hc2]
  constructor
  · intro hmem
    have hok : algPolicyOk (some algs) = true := by
      simp [algPolicyOk, List.contains, requiredAlg, hmem]
    refine ⟨hok, fun hfs u hj => ?_⟩
    unfold startServer
    rw [if_neg hcond]
    simp [hok, hfs, hj]
  · intro hmem
    have hko : algPolicyOk (some algs) = false := by
      simp [algPolicyOk, List.contains, requiredAlg, hmem]
    have herr : startServer cfg (.ok ⟨some algs, jwks⟩) firestoreOk =
        .error "FATAL: Identity service no longer supports the required JWT algorithm RS256" := by
      unfold startServer
      rw [if_neg hcond]
      simp [hko]
    exact ⟨hko, herr, fun app hok => by rw [herr] at hok; exact Except.noConfusion hok⟩

/-- Witness for startServer_alg_policy: RS256 advertised lets startup
succeed; the list consisting of HS256 alone is fatal. -/
theorem startServer_alg_policy_witness :
    startServer ⟨"3001", some "proj", some "http://idp", some "key"⟩
        (.ok ⟨some ["RS256"], some "http://idp/jwks"⟩) true =
      .ok ⟨"http://idp/jwks", "3001"⟩ ∧
    startServer ⟨"3001", some "proj", some "http://idp", some "key"⟩
        (.ok ⟨some ["HS256"], some "http://idp/jwks"⟩) true =
      .error "FATAL: Identity service no longer supports the required JWT algorithm RS256" := by
  constructor
  · exact ((startServer_alg_policy ⟨"3001", some "proj", some "http://idp", some "key"⟩
      ["RS256"] (some "http://idp/jwks") true (by decide) (by decide)).1
        (by decide)).2 rfl "http://idp/jwks" rfl
  · exact ((startServer_alg_policy ⟨"3001", some "proj", some "http://idp", some "key"⟩
      ["HS256"] (some "http://idp/jwks") true (by decide) (by decide)).2
        (by decide)).2.1

/-! ## Helper lemmas about the auth gate -/

/-- A string passing the jsStartsWith test decomposes as the tested
leading piece followed by a remainder. -/
theorem jsStartsWith_exists_suffix {h p : String}
    (hs : jsStartsWith h p = true) : ∃ t : String, h = p ++ t := by
  unfold jsStartsWith at hs
  rw [List.isPrefixOf_iff_prefix] at hs
  obtain ⟨t, ht⟩ := hs
  refine ⟨⟨t⟩, String.ext ?_⟩
  rw [String.data_append]
  exact ht.symm

/-- The premise of C2: the Authorization header is absent, or does not
consist of the exact Bearer scheme followed by a non-empty token. -/
def malformedAuthHeader (a : Option String) : Prop :=
  match a with
  | none => True
  | some h => ¬ ∃ t, t ≠ "" ∧ h = "Bearer " ++ t

/-- On a malformed header one of the two early rejection branches fires:
the middleware rejects without ever calling verify. -/
theorem createAuthMiddleware_malformed (verify : Verifier)
    (a : Option String) (hmal : malformedAuthHeader a) :
    ∃ msg, createAuthMiddleware verify a = (.reject msg, false) := by
  cases a with
  | none => exact ⟨_, rfl⟩
  | some h =>
    by_cases hb : jsStartsWith h "Bearer " = true
    · obtain ⟨t, ht⟩ := jsStartsWith_exists_suffix hb
      have ht0 : t = "" := by
        by_contra hne
        exact hmal ⟨t, hne, ht⟩
      rw [ht0] at ht
      have hB : h = "Bearer " := by rw [ht]; decide
      subst hB
      exact ⟨"Unauthorized: Token is missing.", rfl⟩
    · have hb' : jsStartsWith h "Bearer " = false := by
        revert hb; cases jsStartsWith h "Bearer " <;> simp
      exact ⟨"Unauthorized: No or invalid token provided.",
        by simp [createAuthMiddleware, hb']⟩

/-- The token the middleware extracts from a present header. -/
def tokenOf (a : Option String) : String :=
  match a with
  | none => ""
  | some h => (jsSplitSpace h)[1]?.getD ""

/-- A header carrying the Bearer scheme and a non-empty extracted token:
exactly the requests on which the middleware invokes the verifier. -/
def wellFormedBearer (a : Option String) : Prop :=
  ∃ h, a = some h ∧ jsStartsWith h "Bearer " = true ∧
    (jsSplitSpace h)[1]?.getD "" ≠ ""

/-- The verification step fails on a token: either the verifier throws
(expired, bad signature, unknown key, malformed token), or it returns a
payload that fails the claims check. -/
def verificationFails (verify : Verifier) (tok : String) : Prop :=
  (∃ er, verify tok = .error er) ∨
  (∃ p, verify tok = .ok p ∧
    (p.sub.isString = false ∨ jsTruthy p.email = false ∨
      jsTruthy p.«alias» = false))

/-- Every failing verification behind a well-formed header yields the
one generic rejection, with the verifier having run. -/
theorem createAuthMiddleware_fail_generic (verify : Verifier)
    (a : Option String) (hwf : wellFormedBearer a)
    (hvf : verificationFails verify (tokenOf a)) :
    createAuthMiddleware verify a =
      (.reject "Unauthorized: Invalid or expired token.", true) := by
  obtain ⟨h, ha, hb, ht⟩ := hwf
  subst ha
  have htok : tokenOf (some h) = (jsSplitSpace h)[1]?.getD "" := rfl
  rw [htok] at hvf
  rcases hvf with ⟨er, hv⟩ | ⟨p, hv, hbad⟩
  · simp [createAuthMiddleware, hb, ht, hv]
  · cases hp : p.sub with
    | vStr s =>
      rcases hbad with hs | he | hal
      · rw [hp] at hs; simp [JsVal.isString] at hs
      · simp [createAuthMiddleware, hb, ht, hv, hp, he]
      · simp [createAuthMiddleware, hb, ht, hv, hp, hal]
    | vUndef => simp [createAuthMiddleware, hb, ht, hv, hp]
    | vNull => simp [createAuthMiddleware, hb, ht, hv, hp]
    | vBool b => simp [createAuthMiddleware, hb, ht, hv, hp]
    | vNum n => simp [createAuthMiddleware, hb, ht, hv, hp]

/-! ## Claim theorems: auth gate -/

/-- C2: a request whose Authorization header is absent or does not carry
the exact Bearer scheme with a non-empty token is answered 401 with the
verifier never invoked, no provider call, no store write, no store read,
and the store unchanged, on both routes. -/
theorem authGate_malformed_header (verify : Verifier)
    (provider : String → LookupResult) (writeFails readFails : Bool)
    (s : Store) (authHeader : Option String) (bodyEmail : Option String)
    (hmal : malformedAuthHeader authHeader) :
    (handlePost verify provider writeFails s authHeader bodyEmail).status = 401 ∧
    (handlePost verify provider writeFails s authHeader bodyEmail).store = s ∧
    (handlePost verify provider writeFails s authHeader bodyEmail).verifierCalled = false ∧
    (handlePost verify provider writeFails s authHeader bodyEmail).providerCalls = 0 ∧
    (handlePost verify provider writeFails s authHeader bodyEmail).storeWriteAttempts = 0 ∧
    (handleGet verify readFails s authHeader).status = 401 ∧
    (handleGet verify readFails s authHeader).verifierCalled = false ∧
    (handleGet verify readFails s authHeader).storeReads = 0 := by
  obtain ⟨msg, hmw⟩ := createAuthMiddleware_malformed verify authHeader hmal
  simp [handlePost, handleGet, hmw]

/-- Witness for authGate_malformed_header at a request with no
Authorization header at all. -/
theorem authGate_malformed_header_witness :
    (handlePost (fun _ => .error .expired) (fun _ => .notFound) false []
        none (some "a@x")).status = 401 ∧
    (handlePost (fun _ => .error .expired) (fun _ => .notFound) false []
        none (some "a@x")).store = [] ∧
    (handlePost (fun _ => .error .expired) (fun _ => .notFound) false []
        none (some "a@x")).verifierCalled = false ∧
    (handlePost (fun _ => .error .expired) (fun _ => .notFound) false []
        none (some "a@x")).providerCalls = 0 ∧
    (handlePost (fun _ => .error .expired) (fun _ => .notFound) false []
        none (some "a@x")).storeWriteAttempts = 0 ∧
    (handleGet (fun _ => .error .expired) false [] none).status = 401 ∧
    (handleGet (fun _ => .error .expired) false [] none).verifierCalled = false ∧
    (handleGet (fun _ => .error .expired) false [] none).storeReads = 0 :=
  authGate_malformed_header (fun _ => .error .expired) (fun _ => .notFound)
    false false [] none (some "a@x") trivial

/-- C4: any two failing verifications behind well-formed bearer headers
produce identical outward responses, namely the same 401 status and the
same generic body, regardless of which check failed on which token. -/
theorem authGate_uniform_failure (v₁ v₂ : Verifier) (a₁ a₂ : Option String)
    (hw₁ : wellFormedBearer a₁) (hw₂ : wellFormedBearer a₂)
    (hf₁ : verificationFails v₁ (tokenOf a₁))
    (hf₂ : verificationFails v₂ (tokenOf a₂)) :
    (createAuthMiddleware v₁ a₁).1 =
      .reject "Unauthorized: Invalid or expired token." ∧
    (createAuthMiddleware v₂ a₂).1 = (createAuthMiddleware v₁ a₁).1 ∧
    ∀ (provider : String → LookupResult) (writeFails readFails : Bool)
      (s : Store) (bodyEmail : Option String),
      (handlePost v₁ provider writeFails s a₁ bodyEmail).status = 401 ∧
      (handlePost v₂ provider writeFails s a₂ bodyEmail).status = 401 ∧
      (handlePost v₁ provider writeFails s a₁ bodyEmail).body =
        (handlePost v₂ provider writeFails s a₂ bodyEmail).body ∧
      (handleGet v₁ readFails s a₁).status = 401 ∧
      (handleGet v₁ readFails s a₁).body = (handleGet v₂ readFails s a₂).body := by
  have h₁ := createAuthMiddleware_fail_generic v₁ a₁ hw₁ hf₁
  have h₂ := createAuthMiddleware_fail_generic v₂ a₂ hw₂ hf₂
  refine ⟨by rw [h₁], by rw [h₁, h₂], ?_⟩
  intro provider writeFails readFails s bodyEmail
  refine ⟨?_, ?_, ?_, ?_, ?_⟩ <;> simp [handlePost, handleGet, h₁, h₂]

/-- Witness for authGate_uniform_failure: an expired token and one with a
bad signature receive the same generic rejection. -/
theorem authGate_uniform_failure_witness :
    (createAuthMiddleware (fun _ => .error .expired) (some "Bearer t1")).1 =
      .reject "Unauthorized: Invalid or expired token." ∧
    (createAuthMiddleware (fun _ => .error .signatureInvalid)
        (some "Bearer t2")).1 =
      (createAuthMiddleware (fun _ => .error .expired) (some "Bearer t1")).1 := by
  have h := authGate_uniform_failure (fun _ => .error .expired)
    (fun _ => .error .signatureInvalid) (some "Bearer t1") (some "Bearer t2")
    ⟨"Bearer t1", rfl, by decide, by decide⟩
    ⟨"Bearer t2", rfl, by decide, by decide⟩
    (Or.inl ⟨.expired, rfl⟩) (Or.inl ⟨.signatureInvalid, rfl⟩)
  exact ⟨h.1, h.2.1⟩

/-- C1 counterexample: under the older authMiddleware a token whose
payload has a string sub but lacks the email and alias claims entirely
still produces an Identity and passes the request on; and under
createAuthMiddleware a payload whose email claim is a non-zero number
(present and truthy but of the wrong type) is also accepted. So the gate
does not fail on every missing or wrongly typed email or alias claim. -/
theorem claims_check_counterexample :
    authMiddleware (fun _ => .ok ⟨.vStr "u1", .vUndef, .vUndef⟩)
        (some "secret") (some "Bearer tok") =
      .accept ⟨"u1", .vUndef, .vUndef⟩ ∧
    createAuthMiddleware (fun _ => .ok ⟨.vStr "u1", .vNum 5, .vStr "A"⟩)
        (some "Bearer tok") =
      (.accept ⟨"u1", .vNum 5, .vStr "A"⟩, true) := by
  constructor
  · decide
  · decide

/-- C1 amended: any Identity produced by createAuthMiddleware comes from
a verified payload whose sub is a string (equal to the Identity id) and
whose email and alias claims are present and truthy, though their type
is not checked; the older authMiddleware checks only that sub is a
string. In both variants a payload lacking the sub claim never produces
an Identity. -/
theorem verifier_claims_check (verify : Verifier) (a : Option String)
    (u : Identity) (vc : Bool) :
    (createAuthMiddleware verify a = (.accept u, vc) →
      ∃ tok p, verify tok = .ok p ∧ p.sub = .vStr u.id ∧
        jsTruthy p.email = true ∧ jsTruthy p.«alias» = true ∧
        u.email = p.email ∧ u.«alias» = p.«alias») ∧
    (∀ secret, authMiddleware verify secret a = .accept u →
      ∃ tok p, verify tok = .ok p ∧ p.sub = .vStr u.id) := by
  constructor
  · intro hacc
    cases a with
    | none => simp [createAuthMiddleware] at hacc
    | some h =>
      simp only [createAuthMiddleware] at hacc
      by_cases hb : jsStartsWith h "Bearer " = false
      · rw [if_pos hb] at hacc; simp at hacc
      · rw [if_neg hb] at hacc
        by_cases ht : (jsSplitSpace h)[1]?.getD "" = ""
        · rw [if_pos ht] at hacc; simp at hacc
        · rw [if_neg ht] at hacc
          cases hv : verify ((jsSplitSpace h)[1]?.getD "") with
          | error er => simp only [hv] at hacc; simp at hacc
          | ok p =>
            simp only [hv] at hacc
            cases hp : p.sub with
            | vStr s =>
              simp only [hp] at hacc
              by_cases hg : (jsTruthy p.email && jsTruthy p.«alias») = true
              · rw [if_pos hg] at hacc
                simp only [Prod.mk.injEq, AuthOutcome.accept.injEq] at hacc
                obtain ⟨h1, -⟩ := hacc
                have hg' := hg
                simp only [Bool.and_eq_true] at hg'
                obtain ⟨hg1, hg2⟩ := hg'
                subst h1
                exact ⟨_, p, hv, by rw [hp], hg1, hg2, rfl, rfl⟩
              · rw [if_neg hg] at hacc; simp at hacc
            | vUndef => simp only [hp] at hacc; simp at hacc
            | vNull => simp only [hp] at hacc; simp at hacc
            | vBool b => simp only [hp] at hacc; simp at hacc
            | vNum n => simp only [hp] at hacc; simp at hacc
  · intro secret hacc
    cases a with
    | none => simp [authMiddleware] at hacc
    | some h =>
      simp only [authMiddleware] at hacc
      by_cases hb : jsStartsWith h "Bearer " = false
      · rw [if_pos hb] at hacc; simp at hacc
      · rw [if_neg hb] at hacc
        cases htk : (jsSplitSpace h)[1]? with
        | none => rw [htk] at hacc; simp at hacc
        | some token =>
          rw [htk] at hacc
          cases secret with
          | none => simp at hacc
          | some sec =>
            simp only at hacc
            cases hv : verify token with
            | error er => simp only [hv] at hacc; simp at hacc
            | ok p =>
              simp only [hv] at hacc
              cases hp : p.sub with
              | vStr s0 =>
                simp only [hp] at hacc
                simp only [LegacyOutcome.accept.injEq] at hacc
                subst hacc
                exact ⟨token, p, hv, by rw [hp]⟩
              | vUndef => simp only [hp] at hacc; simp at hacc
              | vNull => simp only [hp] at hacc; simp at hacc
              | vBool b => simp only [hp] at hacc; simp at hacc
              | vNum n => simp only [hp] at hacc; simp at hacc

/-- Witness for verifier_claims_check at a concrete accepted request. -/
theorem verifier_claims_check_witness :
    (∃ tok p, (fun _ : String => (.ok ⟨.vStr "u1", .vStr "e", .vStr "A"⟩ :
        Except VerifyErr JwtPayload)) tok = .ok p ∧
      p.sub = .vStr "u1" ∧ jsTruthy p.email = true ∧
      jsTruthy p.«alias» = true ∧ JsVal.vStr "e" = p.email ∧
      JsVal.vStr "A" = p.«alias») ∧
    (∃ tok p, (fun _ : String => (.ok ⟨.vStr "u1", .vStr "e", .vStr "A"⟩ :
        Except VerifyErr JwtPayload)) tok = .ok p ∧ p.sub = .vStr "u1") := by
  have h := verifier_claims_check
    (fun _ => .ok ⟨.vStr "u1", .vStr "e", .vStr "A"⟩) (some "Bearer tok")
    ⟨"u1", .vStr "e", .vStr "A"⟩ true
  exact ⟨h.1 (by decide), h.2 (some "secret") (by decide)⟩

/-- C6: for an authenticated caller, a successful provider lookup for a
non-empty posted email yields a 201 whose body is exactly the provider
record, and a subsequent GET by the same caller lists a contact with
that id, email and alias. -/
theorem post_then_get_roundtrip (verify : Verifier)
    (provider : String → LookupResult) (s : Store)
    (authHeader : Option String) (e : String) (c : ProviderContact)
    (owner : Identity) (vc : Bool)
    (hmw : createAuthMiddleware verify authHeader = (.accept owner, vc))
    (hne : e ≠ "") (hp : provider e = .found c) :
    (handlePost verify provider false s authHeader (some e)).status = 201 ∧
    (handlePost verify provider false s authHeader (some e)).body =
      .contactBody c ∧
    (handleGet verify false
        (handlePost verify provider false s authHeader (some e)).store
        authHeader).status = 200 ∧
    ∃ l, (handleGet verify false
        (handlePost verify provider false s authHeader (some e)).store
        authHeader).body = .contactList l ∧
      (⟨c.id, c.email, c.«alias»⟩ : Contact) ∈ l := by
  have hget : (some e).getD "" = e := rfl
  have hpost : handlePost verify provider false s authHeader (some e) =
      ⟨201, .contactBody c, addContactToAddressBook s owner.id c, vc, 1, 1⟩ := by
    simp [handlePost, hmw, hget, hne, hp]
  rw [hpost]
  refine ⟨rfl, rfl, by simp [handleGet, hmw], ?_⟩
  refine ⟨getUserAddressBook (addContactToAddressBook s owner.id c) owner.id,
    by simp [handleGet, hmw], ?_⟩
  unfold getUserAddressBook addContactToAddressBook
  have hmem := mem_setDoc_self s (owner.id, c.id) ⟨c.«alias», c.email, c.id⟩
  have hfil : ((owner.id, c.id), (⟨c.«alias», c.email, c.id⟩ : StoredDoc)) ∈
      (setDoc s (owner.id, c.id) ⟨c.«alias», c.email, c.id⟩).filter
        (fun x => x.1.1 == owner.id) :=
    List.mem_filter.mpr ⟨hmem, by simp⟩
  exact List.mem_map.mpr ⟨_, hfil, rfl⟩

/-- Witness for post_then_get_roundtrip at concrete inputs, mirroring the
scenario of the spec. -/
theorem post_then_get_roundtrip_witness :
    (handlePost (fun _ => .ok ⟨.vStr "me", .vStr "me@example.com", .vStr "Me"⟩)
        (fun _ => .found ⟨"u1", "a@example.com", "A", []⟩) false []
        (some "Bearer tok") (some "a@example.com")).status = 201 ∧
    (handlePost (fun _ => .ok ⟨.vStr "me", .vStr "me@example.com", .vStr "Me"⟩)
        (fun _ => .found ⟨"u1", "a@example.com", "A", []⟩) false []
        (some "Bearer tok") (some "a@example.com")).body =
      .contactBody ⟨"u1", "a@example.com", "A", []⟩ ∧
    (handleGet (fun _ => .ok ⟨.vStr "me", .vStr "me@example.com", .vStr "Me"⟩)
        false
        (handlePost (fun _ => .ok ⟨.vStr "me", .vStr "me@example.com", .vStr "Me"⟩)
          (fun _ => .found ⟨"u1", "a@example.com", "A", []⟩) false []
          (some "Bearer tok") (some "a@example.com")).store
        (some "Bearer tok")).status = 200 ∧
    ∃ l, (handleGet (fun _ => .ok ⟨.vStr "me", .vStr "me@example.com", .vStr "Me"⟩)
        false
        (handlePost (fun _ => .ok ⟨.vStr "me", .vStr "me@example.com", .vStr "Me"⟩)
          (fun _ => .found ⟨"u1", "a@example.com", "A", []⟩) false []
          (some "Bearer tok") (some "a@example.com")).store
        (some "Bearer tok")).body = .contactList l ∧
      (⟨"u1", "a@example.com", "A"⟩ : Contact) ∈ l :=
  post_then_get_roundtrip
    (fun _ => .ok ⟨.vStr "me", .vStr "me@example.com", .vStr "Me"⟩)
    (fun _ => .found ⟨"u1", "a@example.com", "A", []⟩) [] (some "Bearer tok")
    "a@example.com" ⟨"u1", "a@example.com", "A", []⟩
    ⟨"me", .vStr "me@example.com", .vStr "Me"⟩ true (by decide) (by decide) rfl
